import Mathlib

/-!
Verification development for the land-listing evaluation pipeline.

This file gives a shallow embedding of the pipeline's core components —
record selection and segmentation (`data_processor.py`), result extraction
(`extract_report_from_result` in `main.py`), staging cleanup
(`cleanup_cork_folder` in `main.py`) and the report renderer with its
markdown fallback (`pdf_generator.py`) — and proves the testable
properties of the specification against that embedding.

Conventions of the embedding:
* A pandas `DataFrame` is modelled by its column list together with its
  rows; every row is a total function from column names to cell values
  (in pandas every row carries a value for every column of the frame).
* Python exceptions are modelled with `Except String`; a `try/except`
  block becomes a `match` on the `Except` value.
* Filesystem writes are collected into explicit lists of written paths;
  fault injection (an `OSError` on a particular write or unlink) is an
  explicit parameter of the model.
-/

namespace Soar

/-- A pandas dataframe: a schema (column list) plus rows.  Each row is a
total assignment of cell values to column names, mirroring pandas where
every row of a frame has a value in every column of the frame. -/
structure DataFrame where
  columns : List String
  rows : List (String → String)

/-- `data_processor.validate_data`: the list comprehension
`[col for col in required_columns if col not in df.columns]`. -/
def missing_columns (df : DataFrame) (required_columns : List String) : List String :=
  required_columns.filter (fun c => !(df.columns.contains c))

/-- `data_processor.validate_data(df, required_columns, csv_name)`:
returns `len(missing_columns) < len(required_columns)` — at least one
required column is present.  The `csv_name` argument only feeds the log
message in the source and does not affect the returned value. -/
def validate_data (df : DataFrame) (required_columns : List String)
    (csv_name : String) : Bool :=
  (missing_columns df required_columns).length < required_columns.length

/-- `[col for col in property_cols if col in stock_data.columns]` — the
columns of a segment spec that actually exist in the frame, kept in
spec-declared order. -/
def existing_cols (spec_cols df_cols : List String) : List String :=
  spec_cols.filter (fun c => df_cols.contains c)

/-- `property_cols` in `process_master_csv`. -/
def property_cols : List String :=
  ["Property Address", "City", "State", "Zip"]

/-- `environmental_cols` in `process_master_csv`. -/
def environmental_cols : List String :=
  ["In SFHA", "Fema Flood Zone", "FEMA Map Date", "Floodplain Area"]

/-- `growth_cols` in `process_master_csv`. -/
def growth_cols : List String :=
  ["% Pop Grwth 2020-2024(5m)", "% Pop Grwth 2024-2029(5m)",
   "% Pop Grwth 2020-2024(10m)", "% Pop Grwth 2024-2029(10m)",
   "% HU Grwth 2020-2024(5m)", "% HU Grwth 2020-2024(10m)"]

/-- `housing_cols` in `process_master_csv`. -/
def housing_cols : List String :=
  ["TotHUs_5", "OccHUs_5", "OwnerOcc_5", "RenterOcc_5",
   "AvgOwnerHHSize_5", "AvgRenterHHSize_5", "VacHUs_5",
   "VacantForSale_5", "VacantForRent_5", "VacantSeasonal_5",
   "MobileHomes_5", "MobileHomesPerK_5", "TotHUs_10", "OccHUs_10",
   "OwnerOcc_10", "RenterOcc_10", "AvgOwnerHHSize_10",
   "AvgRenterHHSize_10", "VacHUs_10", "VacantForSale_10",
   "VacantForRent_10", "VacantSeasonal_10", "MobileHomes_10",
   "MobileHomesPerK_10"]

/-- `demographics_cols` in `process_master_csv`. -/
def demographics_cols : List String :=
  ["TotPop_5", "Age0_4_5", "Age5_9_5", "Age10_14_5",
   "Age15_19_5", "Age20_24_5", "Age25_34_5", "Age35_44_5",
   "Age45_54_5", "Age55_59_5", "Age60_64_5", "Age65_74_5",
   "Age75_84_5", "Over85_5", "TotHHs_5", "MedianHHInc_5",
   "AvgHHInc_5", "InKindergarten_5", "InElementary_5",
   "InHighSchool_5", "InCollege_5", "Disabled_5",
   "DisabledUnder18_5", "NonInst18_64_5", "Disabled18_64_5",
   "NonInstOver65_5", "DisabledElder_5", "TotPop_10",
   "Age0_4_10", "Age5_9_10", "Age10_14_10", "Age15_19_10",
   "Age20_24_10", "Age25_34_10", "Age35_44_10", "Age45_54_10",
   "Age55_59_10", "Age60_64_10", "Age65_74_10", "Age75_84_10",
   "Over85_10", "TotHHs_10", "MedianHHInc_10", "AvgHHInc_10",
   "InKindergarten_10", "InElementary_10", "InHighSchool_10",
   "InCollege_10", "Disabled_10", "DisabledUnder18_10",
   "NonInst18_64_10", "Disabled18_64_10", "NonInstOver65_10",
   "DisabledElder_10", "HvalUnder50_5", "Hval50_5", "Hval100_5",
   "Hval150_5", "Hval200_5", "Hval300_5", "Hval500_5",
   "HvalOverMillion_5", "HvalOver2Million_5", "MedianHValue_5",
   "MedianGrossRent_5", "AvgGrossRent_5", "HvalUnder50_10",
   "Hval50_10", "Hval100_10", "Hval150_10", "Hval200_10",
   "Hval300_10", "Hval500_10", "HvalOverMillion_10",
   "HvalOver2Million_10", "MedianHValue_10", "MedianGrossRent_10",
   "AvgGrossRent_10"]

/-- The five segment specs of `process_master_csv`, in the order the code
processes them, each with its output file name. -/
def segments : List (String × List String) :=
  [("property.csv", property_cols),
   ("enviornmental.csv", environmental_cols),
   ("growthTrends.csv", growth_cols),
   ("housingUnitsAndOccupancy.csv", housing_cols),
   ("demographics.csv", demographics_cols)]

/-- The per-segment extract blocks of `process_master_csv`: for each
segment spec, when `validate_data` passes, the extract written is the
projection onto the spec columns that exist in the frame, in declared
order; otherwise nothing is written for this segment. -/
def segmentExtracts (df : DataFrame) : List (String × List String) :=
  segments.filterMap (fun s =>
    if validate_data df s.2 s.1 then some (s.1, existing_cols s.2 df.columns)
    else none)

/-- An extract file written to the staging (cork) folder: its full path
and the header columns it carries. -/
structure Extract where
  path : String
  columns : List String
  deriving DecidableEq, Repr

/-- The dictionary returned by `process_master_csv` on success. -/
structure CrewInputs where
  City : String
  State : String
  PropertyAddress : String
  listing_id : String
  property_csv_path : String
  environmental_csv_path : String
  growth_trends_csv_path : String
  occupancy_csv_path : String
  demographics_csv_path : String
  deriving DecidableEq, Repr

/-- `data_processor.process_master_csv(stock_number, cork_path)` applied
to a master dataframe: returns the crew-inputs dictionary (or `None`) and
the list of extract files written.  The whole body sits inside
`try/except Exception: return None`, so a missing `StockNumber` column
(a pandas `KeyError` when filtering) and an unmatched stock number both
yield `None`; the only writes are the per-segment `to_csv` calls. -/
def process_master_csv (master_df : DataFrame) (stock_number : String)
    (cork_path : String) : Option CrewInputs × List Extract :=
  if master_df.columns.contains "StockNumber" then
    match master_df.rows.filter (fun r => r "StockNumber" == stock_number) with
    | [] => (none, [])
    | r :: rest =>
      let stock_data : DataFrame := ⟨master_df.columns, r :: rest⟩
      let writes := (segmentExtracts stock_data).map
        (fun e => { path := cork_path ++ "/" ++ e.1, columns := e.2 : Extract })
      let cell (c : String) : String :=
        if stock_data.columns.contains c then r c else "Unknown"
      (some {
        City := cell "City",
        State := cell "State",
        PropertyAddress := cell "Property Address",
        listing_id := stock_number,
        property_csv_path := "database/cork/property.csv",
        environmental_csv_path := "database/cork/enviornmental.csv",
        growth_trends_csv_path := "database/cork/growthTrends.csv",
        occupancy_csv_path := "database/cork/housingUnitsAndOccupancy.csv",
        demographics_csv_path := "database/cork/demographics.csv" }, writes)
  else (none, [])

/-- A Python runtime value, as far as `extract_report_from_result` can
observe one: `None`, a string, an integer, a list, a string-keyed dict,
or an object carrying named attributes (its class name is kept for
`str()`). -/
inductive PyVal where
  | pyNone
  | pyStr (s : String)
  | pyInt (n : Int)
  | pyList (xs : List PyVal)
  | pyDict (entries : List (String × PyVal))
  | pyObj (className : String) (attrs : List (String × PyVal))

namespace PyVal

/-- Python `v == some_string`: true exactly when `v` is an equal `str`
(comparison between a non-string and a string is `False`, never an
error). -/
def eqStr (v : PyVal) (t : String) : Bool :=
  match v with
  | pyStr s => s == t
  | _ => false

/-- Python truthiness: `None`, `""`, `0`, `[]` and `\x7b\x7d` are falsy;
ordinary objects are truthy. -/
def truthy : PyVal → Bool
  | pyNone => false
  | pyStr s => s ≠ ""
  | pyInt n => n ≠ 0
  | pyList xs => !xs.isEmpty
  | pyDict es => !es.isEmpty
  | pyObj _ _ => true

/-- `getattr(v, name)` as a partial lookup: only objects expose
attributes here (strings, ints, lists and dicts have no `raw`,
`status` or `output` attribute). -/
def attr (v : PyVal) (name : String) : Option PyVal :=
  match v with
  | pyObj _ attrs => attrs.lookup name
  | _ => none

/-- `hasattr(v, name)`. -/
def hasattrB (v : PyVal) (name : String) : Bool :=
  (v.attr name).isSome

/-- `str(v)`.  For the containers we print a shape close to CPython's;
the exact rendering of nested containers is not load-bearing for any
claim, only that distinct scalars and distinct object classes render
differently. -/
def pyStrOf : PyVal → String
  | pyNone => "None"
  | pyStr s => s
  | pyInt n => toString n
  | pyList _ => "[...]"
  | pyDict _ => "\x7b...\x7d"
  | pyObj className _ => "<" ++ className ++ " object>"

/-- `v.get(key, default)` — a method call on `v`.  Only dicts have a
`get` method; on any other receiver Python raises `AttributeError`. -/
def dictGet (v : PyVal) (key : String) (dflt : PyVal) : Except String PyVal :=
  match v with
  | pyDict es => .ok ((es.lookup key).getD dflt)
  | _ => .error "AttributeError"

/-- `reversed(v)` followed by iteration, demanding a sequence of task
results.  A list yields its elements; any non-sequence raises
`TypeError`.  (Iterating a string or a dict would instead yield
characters or keys, and the very next `.get` call on those raises
`AttributeError`; either way the surrounding `except` catches it, so
collapsing those cases into an error here is observationally the same.) -/
def asTaskList (v : PyVal) : Except String (List PyVal) :=
  match v with
  | pyList xs => .ok xs
  | _ => .error "TypeError"

end PyVal

/-- The pattern `'Final Answer:' in output` plus
`output.split('Final Answer:', 1)[1]`: find the first occurrence of
`pat` in the character list and return everything after it, or `none`
when `pat` does not occur. -/
def splitAfterMarker (pat : List Char) : List Char → Option (List Char)
  | [] => none
  | c :: rest =>
      if pat.isPrefixOf (c :: rest) then some ((c :: rest).drop pat.length)
      else splitAfterMarker pat rest

/-- Python `str.strip()`: drop whitespace from both ends. -/
def trimChars (l : List Char) : List Char :=
  ((l.dropWhile Char.isWhitespace).reverse.dropWhile Char.isWhitespace).reverse

/-- The delimiter marker `'Final Answer:'`. -/
def finalAnswerMarker : String := "Final Answer:"

/-- The body of the completed-output branch of
`extract_report_from_result`: if the output contains the marker, return
the substring after its first occurrence stripped of surrounding
whitespace, otherwise return the output verbatim. -/
def handleOutput (output : String) : String :=
  match splitAfterMarker finalAnswerMarker.data output.data with
  | some rest => String.mk (trimChars rest)
  | none => output

/-- The `for task_result in reversed(...)` loop of
`extract_report_from_result`, already applied to the reversed item list:
scan for the first dict whose `status` equals `'completed'` and whose
`output` is a non-empty string, and produce its handled output.  A
non-dict element raises (`AttributeError` on `.get`), which the model
surfaces as an `Except.error` for the outer handler to catch. -/
def scanOutcomes : List PyVal → Except String (Option String)
  | [] => .ok none
  | t :: rest =>
      match t.dictGet "status" .pyNone with
      | .error e => .error e
      | .ok status =>
          if status.eqStr "completed" then
            match t.dictGet "output" (.pyStr "") with
            | .error e => .error e
            | .ok output =>
                match output with
                | .pyStr s =>
                    if s ≠ "" then .ok (some (handleOutput s))
                    else scanOutcomes rest
                | _ => scanOutcomes rest
          else scanOutcomes rest

/-- The body of the `try:` block of `main.extract_report_from_result`:
the structured-result probe, the reverse scan, and the final
`return str(result)` fallthrough.  Any Python exception inside the block
is an `Except.error`. -/
def extractBody (result : PyVal) : Except String String :=
  if result.truthy && result.hasattrB "raw" then
    match ((result.attr "raw").getD .pyNone).dictGet "task_results" (.pyList []) with
    | .error e => .error e
    | .ok tr =>
        match tr.asTaskList with
        | .error e => .error e
        | .ok items =>
            match scanOutcomes items.reverse with
            | .error e => .error e
            | .ok (some s) => .ok s
            | .ok none => .ok (PyVal.pyStrOf result)
  else .ok (PyVal.pyStrOf result)

/-- `main.extract_report_from_result(result)`: the `try/except` wrapper —
on any exception, log and `return str(result)`. -/
def extract_report_from_result (result : PyVal) : String :=
  match extractBody result with
  | .ok s => s
  | .error _ => PyVal.pyStrOf result

/-- A structured step outcome as the spec's data model declares it:
a status drawn from a closed set and a text output. -/
structure StepOutcome where
  status : String
  output : String
  deriving DecidableEq, Repr

/-- Render a `StepOutcome` as the dict the analysis engine produces. -/
def StepOutcome.toPy (o : StepOutcome) : PyVal :=
  .pyDict [("status", .pyStr o.status), ("output", .pyStr o.output)]

/-- A structured analysis result: an object with a `raw` attribute whose
`task_results` entry is the ordered outcome list. -/
def mkStructuredResult (outcomes : List StepOutcome) : PyVal :=
  .pyObj "CrewOutput"
    [("raw", .pyDict [("task_results", .pyList (outcomes.map StepOutcome.toPy))])]

/-- The match predicate of the reverse scan: status `completed`, output
non-empty text. -/
def isMatchB (o : StepOutcome) : Bool :=
  o.status == "completed" && o.output != ""

/-- The runtime environment of one `generate_pdf_report` call: whether
`_import_pdf_dependencies` succeeds, whether the rich conversion/write
path runs to completion (any exception in it — a missing shared library,
an `mdformat`/`markdown` error, a `write_pdf` failure — is one `False`),
whether the `open`/`write` of the markdown fallback succeeds, and the
timestamp string the two filename builders read from the clock. -/
structure RenderEnv where
  richImportOk : Bool
  richWriteOk : Bool
  fallbackWriteOk : Bool
  timestamp : String
  deriving DecidableEq, Repr

/-- `Path(output_path) if output_path else Path(".")`, rendered as the
directory prefix of the artifact path. -/
def outputDir (output_path : Option String) : String :=
  match output_path with
  | some p => p
  | none => "."

/-- `pdf_generator._save_markdown_fallback(content, output_path,
listing_id)`: write `Land_Evaluation_{listing_id}_{timestamp}.md` and
return its path, or — when the write raises — log and `return None`.
Result: the returned path (if any) and the list of files written. -/
def save_markdown_fallback (env : RenderEnv) (output_path : Option String)
    (listing_id : String) : Option String × List String :=
  let md_path := outputDir output_path ++ "/Land_Evaluation_" ++ listing_id
      ++ "_" ++ env.timestamp ++ ".md"
  if env.fallbackWriteOk then (some md_path, [md_path]) else (none, [])

/-- `pdf_generator.generate_pdf_report(markdown_content, output_path,
listing_id)`: probe the rich capability per call; on success of the
whole rich path write exactly the PDF; on any failure inside the rich
path, or when the capability probe fails, fall back to
`_save_markdown_fallback`.  The markdown content itself does not affect
which artifact is produced, only its bytes, so the model keeps it
abstract. -/
def generate_pdf_report (env : RenderEnv) (markdown_content : String)
    (output_path : Option String) (listing_id : String) :
    Option String × List String :=
  if env.richImportOk then
    if env.richWriteOk then
      let pdf_path := outputDir output_path ++ "/Land_Evaluation_" ++ listing_id
          ++ "_" ++ env.timestamp ++ ".pdf"
      (some pdf_path, [pdf_path])
    else save_markdown_fallback env output_path listing_id
  else save_markdown_fallback env output_path listing_id

/-- The staging (cork) directory as `cleanup_cork_folder` observes it:
whether the path exists, whether it is a directory, and the file names
inside it. -/
structure CorkDir where
  dirExists : Bool
  isDir : Bool
  files : List String
  deriving DecidableEq, Repr

/-- `*.csv` glob match. -/
def isCsv (f : String) : Bool :=
  ".csv".data.isSuffixOf f.data

/-- The `for csv_file in cork_dir.glob("*.csv"): csv_file.unlink()` loop:
delete the globbed files one at a time; an injected fault on a file
(`failSet`) makes its `unlink` raise, which aborts the loop there with
the exception flag set (the surrounding `except` then swallows it). -/
def unlinkLoop (failSet : List String) : List String → List String → List String × Bool
  | [], files => (files, false)
  | f :: fs, files =>
      if failSet.contains f then (files, true)
      else unlinkLoop failSet fs (files.filter (fun g => g ≠ f))

/-- `main.cleanup_cork_folder(cork_path)`: inside `try/except`, if the
path exists and is a directory, unlink every `*.csv` file in it; any
filesystem error is caught, logged, and not re-raised.  The function
returns the resulting directory state and whether an exception was
caught; it never propagates an exception and never removes the
directory itself. -/
def cleanup_cork_folder (failSet : List String) (d : CorkDir) : CorkDir × Bool :=
  if d.dirExists && d.isDir then
    let r := unlinkLoop failSet (d.files.filter isCsv) d.files
    ({ d with files := r.1 }, r.2)
  else (d, false)

/-- The fatal errors `get_stock_number` can raise: the missing master
file (`FileNotFoundError`), the missing identifier column (`KeyError`,
the schema error), an empty stock list (`ValueError`), and — a model
artifact — exhaustion of the finite list of operator inputs standing in
for the endless re-prompt loop. -/
inductive StockErr where
  | fileNotFound
  | schemaKeyError
  | noStocks
  | noValidChoice
  deriving DecidableEq, Repr

/-- The `while True:` selection loop of `get_stock_number`, modelled on a
finite list of successive operator inputs: a digit string selecting an
in-range index wins, an input equal to an available stock id wins,
anything else re-prompts.  (The real loop re-prompts forever; the model
reports exhaustion as an error, which no claim depends on.) -/
def selectStock (available : List String) : List String → Except StockErr String
  | [] => .error .noValidChoice
  | choice :: rest =>
      match choice.toNat? with
      | some n =>
          if 1 ≤ n && n ≤ available.length then .ok (available.getD (n - 1) "")
          else if available.contains choice then .ok choice
          else selectStock available rest
      | none =>
          if available.contains choice then .ok choice
          else selectStock available rest

/-- `data_processor.get_stock_number()`: check the master file exists,
load it, fail with a `KeyError` when the `StockNumber` column is absent,
fail with a `ValueError` when the stock list is empty, then run the
interactive selection loop.  The function performs no file writes. -/
def get_stock_number (masterExists : Bool) (master_df : DataFrame)
    (choices : List String) : Except StockErr String :=
  if !masterExists then .error .fileNotFound
  else if !(master_df.columns.contains "StockNumber") then .error .schemaKeyError
  else
    let available := master_df.rows.map (fun r => r "StockNumber")
    if available.isEmpty then .error .noStocks
    else selectStock available choices

/-- The data stage of `main.run()`: `get_stock_number` followed by
`process_master_csv`.  A raised selection error propagates to `run`'s
handler before `process_master_csv` is entered, so no extract file is
written in that case: the accumulated write list is empty. -/
def runDataStage (masterExists : Bool) (master_df : DataFrame)
    (choices : List String) (cork_path : String) :
    Except StockErr (Option CrewInputs) × List Extract :=
  match get_stock_number masterExists master_df choices with
  | .error e => (.error e, [])
  | .ok stock =>
      let r := process_master_csv master_df stock cork_path
      (.ok r.1, r.2)

/-! ## Concrete fixtures

Small concrete inputs used to instantiate the claim theorems at
evaluable points. -/

/-- A one-record master frame: identifier `A1`, one metadata column. -/
def rowA : String → String :=
  fun c => if c = "StockNumber" then "A1" else "Springfield"

/-- A master frame with columns `StockNumber` and `City` and the single
record `rowA`. -/
def dfA : DataFrame := ⟨["StockNumber", "City"], [rowA]⟩

/-- The crew inputs `process_master_csv` produces for `dfA` / `A1`. -/
def inputsA : CrewInputs :=
  ⟨"Springfield", "Unknown", "Unknown", "A1",
   "database/cork/property.csv", "database/cork/enviornmental.csv",
   "database/cork/growthTrends.csv",
   "database/cork/housingUnitsAndOccupancy.csv",
   "database/cork/demographics.csv"⟩

/-- A master frame carrying only the identifier column. -/
def dfB : DataFrame := ⟨["StockNumber"], [fun _ => "B2"]⟩

/-- The crew inputs `process_master_csv` produces for `dfB` / `B2`:
every metadata field defaults to `Unknown`. -/
def inputsB : CrewInputs :=
  ⟨"Unknown", "Unknown", "Unknown", "B2",
   "database/cork/property.csv", "database/cork/enviornmental.csv",
   "database/cork/growthTrends.csv",
   "database/cork/housingUnitsAndOccupancy.csv",
   "database/cork/demographics.csv"⟩

/-- A master frame without the `StockNumber` column. -/
def dfC : DataFrame := ⟨["id"], []⟩

/-- A result object whose `task_results` entry is not a sequence:
`reversed(...)` raises `TypeError` inside the `try:` block. -/
def errInput1 : PyVal :=
  .pyObj "CrewOutputA" [("raw", .pyDict [("task_results", .pyInt 0)])]

/-- A second exception-raising result object, of a different class, so
`str(result)` renders differently from `errInput1`. -/
def errInput2 : PyVal :=
  .pyObj "CrewOutputB" [("raw", .pyDict [("task_results", .pyInt 0)])]

/-- A render environment where the rich path and the markdown fallback
write both fail. -/
def envBothFail : RenderEnv := ⟨true, false, false, "20250101_000000"⟩

/-- A render environment where the rich capability probe fails but the
markdown fallback write succeeds. -/
def envFallback : RenderEnv := ⟨false, false, true, "20250101_000000"⟩

/-- A staging directory holding one managed extract and one unmanaged
file. -/
def corkEx : CorkDir := ⟨true, true, ["property.csv", "notes.txt"]⟩

/-! ## Supporting lemmas -/

/-- Fewer elements fail a predicate than there are elements exactly when
some element passes it. -/
theorem filter_not_length_lt {α : Type} (p : α → Bool) (l : List α) :
    ((l.filter (fun a => !(p a))).length < l.length) ↔ l.filter p ≠ [] := by
  induction l with
  | nil => simp
  | cons a l ih =>
    by_cases h : p a = true
    · simp only [List.filter_cons, h, Bool.not_true, if_false, if_true,
        List.length_cons, ne_eq, List.cons_ne_nil, not_false_iff, iff_true,
        reduceIte]
      exact Nat.lt_succ_of_le (List.length_filter_le _ l)
    · simp only [List.filter_cons, h, Bool.not_eq_true] at *
      simp only [List.filter_cons, h, Bool.not_false, if_true, if_false,
        List.length_cons, reduceIte, Nat.add_lt_add_iff_right]
      exact ih

/-- `validate_data` passes exactly when the spec has at least one column
present in the frame, i.e. when the projected column list is non-empty. -/
theorem validate_data_iff (df : DataFrame) (req : List String) (n : String) :
    validate_data df req n = true ↔ existing_cols req df.columns ≠ [] := by
  unfold validate_data missing_columns existing_cols
  simp only [decide_eq_true_eq]
  exact filter_not_length_lt (fun c => df.columns.contains c) req

/-- Looking up a segment name that is not a key of the spec list always
misses the built extract mapping. -/
theorem lookup_segmentBuild_eq_none (df : DataFrame)
    (specs : List (String × List String)) (name : String)
    (hname : name ∉ specs.map Prod.fst) :
    (specs.filterMap (fun s =>
      if validate_data df s.2 s.1 then some (s.1, existing_cols s.2 df.columns)
      else none)).lookup name = none := by
  induction specs with
  | nil => rfl
  | cons s rest ih =>
    simp only [List.map_cons, List.mem_cons, not_or] at hname
    obtain ⟨h1, h2⟩ := hname
    by_cases hv : validate_data df s.2 s.1 = true
    · simp only [List.filterMap_cons, hv, if_true, reduceIte]
      rw [List.lookup_cons, beq_false_of_ne h1]
      exact ih h2
    · simp only [List.filterMap_cons, hv, if_false, Bool.false_eq_true, reduceIte]
      exact ih h2

/-- Looking up a declared segment in the built extract mapping yields its
projected columns exactly when its `validate_data` gate passes, provided
segment names are distinct. -/
theorem lookup_segmentBuild (df : DataFrame)
    (specs : List (String × List String)) (name : String) (cols : List String)
    (hmem : (name, cols) ∈ specs) (hnd : (specs.map Prod.fst).Nodup) :
    (specs.filterMap (fun s =>
      if validate_data df s.2 s.1 then some (s.1, existing_cols s.2 df.columns)
      else none)).lookup name =
      if validate_data df cols name then some (existing_cols cols df.columns)
      else none := by
  induction specs with
  | nil => exact absurd hmem (List.not_mem_nil _)
  | cons s rest ih =>
    obtain ⟨n0, c0⟩ := s
    simp only [List.map_cons, List.nodup_cons] at hnd
    obtain ⟨hkey, hnd2⟩ := hnd
    rcases List.mem_cons.mp hmem with heq | hmem2
    · rw [Prod.mk.injEq] at heq
      obtain ⟨hn, hc⟩ := heq
      subst hn
      subst hc
      by_cases hv : validate_data df cols name = true
      · simp only [List.filterMap_cons, hv, reduceIte, List.lookup_cons,
          beq_self_eq_true, if_true]
      · simp only [Bool.not_eq_true] at hv
        simp only [List.filterMap_cons, hv, Bool.false_eq_true, reduceIte, if_false]
        exact lookup_segmentBuild_eq_none df rest name hkey
    · have hne : name ≠ n0 := by
        intro h
        exact hkey (h ▸ List.mem_map_of_mem Prod.fst hmem2)
      by_cases hv : validate_data df c0 n0 = true
      · simp only [List.filterMap_cons, hv, reduceIte]
        rw [List.lookup_cons, beq_false_of_ne hne]
        exact ih hmem2 hnd2
      · simp only [Bool.not_eq_true] at hv
        simp only [List.filterMap_cons, hv, Bool.false_eq_true, reduceIte]
        exact ih hmem2 hnd2

/-! ## Claim theorems -/

/-- C2: `validate_data(df, required_columns, csv_name)` returns true iff
at least one required column is present in the dataframe's columns; it
returns false only when the set of present required columns is empty,
irrespective of whether all required columns are present. -/
theorem claim_C2_validate_data_iff_some_present (df : DataFrame)
    (required_columns : List String) (csv_name : String) :
    validate_data df required_columns csv_name = true ↔
      ∃ c ∈ required_columns, c ∈ df.columns := by
  rw [validate_data_iff]
  rw [Ne, List.eq_nil_iff_forall_not_mem]
  push_neg
  simp [existing_cols, List.mem_filter]

/-- C1: for every declared segment spec and every selected record, the
emitted extract's columns are exactly the spec's declared columns
intersected with the record's available columns, in spec-declared order
(a sublist of the spec columns whose members are precisely the declared
columns present in the frame); a spec with empty intersection is absent
from the extract mapping, so no file is written for it, and the files
`process_master_csv` writes are exactly the materialized segments. -/
theorem claim_C1_segment_projection (df : DataFrame) (stock cork : String)
    (name : String) (cols : List String) (inputs : CrewInputs)
    (writes : List Extract) (hseg : (name, cols) ∈ segments)
    (hrun : process_master_csv df stock cork = (some inputs, writes)) :
    ((segmentExtracts df).lookup name =
      if existing_cols cols df.columns = [] then none
      else some (existing_cols cols df.columns))
    ∧ writes = (segmentExtracts df).map
        (fun e => { path := cork ++ "/" ++ e.1, columns := e.2 : Extract })
    ∧ (existing_cols cols df.columns).Sublist cols
    ∧ (∀ c, c ∈ existing_cols cols df.columns ↔ c ∈ cols ∧ c ∈ df.columns) := by
  refine ⟨?_, ?_, ?_, ?_⟩
  · have hnd : (segments.map Prod.fst).Nodup := by decide
    have h := lookup_segmentBuild df segments name cols hseg hnd
    rw [segmentExtracts, h]
    by_cases he : existing_cols cols df.columns = []
    · rw [if_pos he, if_neg]
      intro hv
      exact (validate_data_iff df cols name).mp hv he
    · rw [if_neg he, if_pos ((validate_data_iff df cols name).mpr he)]
  · rw [process_master_csv] at hrun
    split at hrun
    · split at hrun
      · exact absurd hrun (by simp)
      · simp only [Prod.mk.injEq, Option.some.injEq] at hrun
        exact hrun.2.symm
    · exact absurd hrun (by simp)
  · exact List.filter_sublist cols
  · intro c
    simp [existing_cols, List.mem_filter]

/-- Witness for C1: on the concrete frame `dfA` with record `A1`, the
property segment materializes with exactly the present spec column
`City`; the instantiated run hypothesis and conclusion are evaluated. -/
theorem claim_C1_segment_projection_witness :
    process_master_csv dfA "A1" "database/cork" =
      (some inputsA, [⟨"database/cork/property.csv", ["City"]⟩])
    ∧ (segmentExtracts dfA).lookup "property.csv" =
        (if existing_cols property_cols dfA.columns = [] then none
         else some (existing_cols property_cols dfA.columns)) :=
  ⟨by decide,
   (claim_C1_segment_projection dfA "A1" "database/cork" "property.csv"
      property_cols inputsA [⟨"database/cork/property.csv", ["City"]⟩]
      (by decide) (by decide)).1⟩

/-- C8: if the master dataset lacks the identifier column `StockNumber`,
record selection raises the fatal schema error (`KeyError`) before any
extract file is written, and the pipeline never reaches segmentation:
the data stage ends in the error with an empty write list. -/
theorem claim_C8_missing_stocknumber_is_schema_error (df : DataFrame)
    (choices : List String) (cork : String)
    (h : df.columns.contains "StockNumber" = false) :
    runDataStage true df choices cork = (.error .schemaKeyError, []) := by
  rw [runDataStage, get_stock_number]
  have h2 : "StockNumber" ∉ df.columns := by simpa using h
  simp [h2]

/-- Witness for C8: a concrete frame whose only column is `id`. -/
theorem claim_C8_missing_stocknumber_is_schema_error_witness :
    dfC.columns.contains "StockNumber" = false
    ∧ runDataStage true dfC [] "database/cork" = (.error .schemaKeyError, []) :=
  ⟨by decide,
   claim_C8_missing_stocknumber_is_schema_error dfC [] "database/cork" (by decide)⟩

/-- C9: for every stock number not present in the dataset,
`process_master_csv` writes no extract files and returns `None`; the
function is total in the model (its body is wrapped in
`try/except Exception: return None` in the source), so no exception
escapes to the caller. -/
theorem claim_C9_no_matching_record_yields_none (df : DataFrame)
    (stock cork : String) (h : ∀ r ∈ df.rows, ¬(r "StockNumber" = stock)) :
    process_master_csv df stock cork = (none, []) := by
  rw [process_master_csv]
  split
  · have hfil : df.rows.filter (fun r => r "StockNumber" == stock) = [] := by
      rw [List.filter_eq_nil_iff]
      intro r hr
      simp [h r hr]
    rw [hfil]
  · rfl

/-- Witness for C9: stock number `ZZZ` is absent from `dfB`. -/
theorem claim_C9_no_matching_record_yields_none_witness :
    (∀ r ∈ dfB.rows, ¬(r "StockNumber" = "ZZZ"))
    ∧ process_master_csv dfB "ZZZ" "database/cork" = (none, []) :=
  ⟨by decide, claim_C9_no_matching_record_yields_none dfB "ZZZ" "database/cork"
    (by decide)⟩

/-- C10: whenever `process_master_csv` succeeds, the returned mapping
carries all five `*_csv_path` keys with fixed `database/cork` paths —
independent of the `cork_path` argument the extracts were actually
written under, and independent of which segments materialized — and the
`City`, `State` and `Property Address` entries default to `Unknown`
when the column is absent from the record. -/
theorem claim_C10_fixed_paths_and_unknown_defaults (df : DataFrame)
    (stock cork : String) (inputs : CrewInputs) (writes : List Extract)
    (hrun : process_master_csv df stock cork = (some inputs, writes)) :
    inputs.property_csv_path = "database/cork/property.csv"
    ∧ inputs.environmental_csv_path = "database/cork/enviornmental.csv"
    ∧ inputs.growth_trends_csv_path = "database/cork/growthTrends.csv"
    ∧ inputs.occupancy_csv_path = "database/cork/housingUnitsAndOccupancy.csv"
    ∧ inputs.demographics_csv_path = "database/cork/demographics.csv"
    ∧ inputs.listing_id = stock
    ∧ (df.columns.contains "City" = false → inputs.City = "Unknown")
    ∧ (df.columns.contains "State" = false → inputs.State = "Unknown")
    ∧ (df.columns.contains "Property Address" = false →
        inputs.PropertyAddress = "Unknown") := by
  rw [process_master_csv] at hrun
  split at hrun
  · split at hrun
    · exact absurd hrun (by simp)
    · simp only [Prod.mk.injEq, Option.some.injEq] at hrun
      obtain ⟨hin, _⟩ := hrun
      subst hin
      refine ⟨rfl, rfl, rfl, rfl, rfl, rfl, ?_, ?_, ?_⟩
      all_goals intro hc
      all_goals simp at hc
      all_goals simp [hc]
  · exact absurd hrun (by simp)

/-- Witness for C10: on `dfB` (identifier column only) with a non-default
cork path, the returned mapping still points at `database/cork` and the
metadata fields are `Unknown`. -/
theorem claim_C10_fixed_paths_and_unknown_defaults_witness :
    process_master_csv dfB "B2" "elsewhere/staging" = (some inputsB, [])
    ∧ inputsB.property_csv_path = "database/cork/property.csv"
    ∧ inputsB.City = "Unknown" := by
  refine ⟨by decide, ?_, ?_⟩
  · exact (claim_C10_fixed_paths_and_unknown_defaults dfB "B2" "elsewhere/staging"
      inputsB [] (by decide)).1
  · exact (claim_C10_fixed_paths_and_unknown_defaults dfB "B2" "elsewhere/staging"
      inputsB [] (by decide)).2.2.2.2.2.2.1 (by decide)

/-- Splitting right after the first marker occurrence, applied to a
string that begins with the marker, returns everything after it. -/
theorem splitAfterMarker_append (pat r : List Char) (h : pat ≠ []) :
    splitAfterMarker pat (pat ++ r) = some r := by
  match pat with
  | [] => exact absurd rfl h
  | c :: pt =>
    rw [List.cons_append, splitAfterMarker, ← List.cons_append]
    rw [if_pos (List.isPrefixOf_iff_prefix.mpr ⟨r, rfl⟩)]
    rw [List.drop_left]

/-- The completed-output branch on an output of the shape
`"Final Answer: X"` returns `X` stripped of surrounding whitespace. -/
theorem handleOutput_final_answer (x : String) :
    handleOutput ("Final Answer: " ++ x) = String.mk (trimChars x.data) := by
  rw [handleOutput]
  have h1 : "Final Answer: ".data = finalAnswerMarker.data ++ [' '] := by decide
  have hdata : ("Final Answer: " ++ x).data
      = finalAnswerMarker.data ++ (' ' :: x.data) := by
    rw [String.data_append, h1, List.append_assoc, List.singleton_append]
  rw [hdata, splitAfterMarker_append _ _ (by decide)]
  have h2 : trimChars (' ' :: x.data) = trimChars x.data := by
    rw [trimChars, trimChars, List.dropWhile_cons]
    simp
  show String.mk (trimChars (' ' :: x.data)) = String.mk (trimChars x.data)
  rw [h2]

/-- The reverse scan over well-formed step-outcome dicts finds exactly
the first outcome (of the given iteration order) with status
`completed` and non-empty text output, and never raises. -/
theorem scanOutcomes_map (l : List StepOutcome) :
    scanOutcomes (l.map StepOutcome.toPy) =
      .ok ((l.find? isMatchB).map (fun o => handleOutput o.output)) := by
  induction l with
  | nil => rfl
  | cons o rest ih =>
    rw [List.map_cons]
    rw [scanOutcomes]
    have hst : (StepOutcome.toPy o).dictGet "status" .pyNone = .ok (.pyStr o.status) := rfl
    have hout : (StepOutcome.toPy o).dictGet "output" (.pyStr "") = .ok (.pyStr o.output) := rfl
    rw [hst, hout]
    by_cases hs : o.status == "completed"
    · by_cases ho : o.output = ""
      · have hm : isMatchB o = false := by simp [isMatchB, ho]
        simp [PyVal.eqStr, hs, ho, List.find?, hm, ih]
      · have hm : isMatchB o = true := by simp [isMatchB, ho, hs]
        simp [PyVal.eqStr, hs, ho, List.find?, hm]
    · have hm : isMatchB o = false := by simp [isMatchB, hs]
      simp [PyVal.eqStr, hs, List.find?, hm, ih]

/-- Extraction on a structured result reduces to the reverse scan: the
most recent matching outcome wins, and with no match the string
representation of the whole result is returned. -/
theorem extract_mkStructured (l : List StepOutcome) :
    extract_report_from_result (mkStructuredResult l) =
      match l.reverse.find? isMatchB with
      | some o => handleOutput o.output
      | none => PyVal.pyStrOf (mkStructuredResult l) := by
  have hbody : extractBody (mkStructuredResult l)
      = match scanOutcomes ((l.map StepOutcome.toPy).reverse) with
        | .error e => .error e
        | .ok (some s) => .ok s
        | .ok none => .ok (PyVal.pyStrOf (mkStructuredResult l)) := rfl
  rw [extract_report_from_result, hbody, ← List.map_reverse, scanOutcomes_map]
  cases hf : l.reverse.find? isMatchB with
  | none => rfl
  | some o => rfl

/-- C3: a result whose structured outcome list holds one `StepOutcome`
with status `completed` and output `"Final Answer: X"` extracts to
exactly `X` with surrounding whitespace trimmed (the substring after the
first marker occurrence); an input that is already plain text `Y`
extracts to `Y` unchanged. -/
theorem claim_C3_round_trip_extraction :
    (∀ x : String,
      extract_report_from_result
          (mkStructuredResult [⟨"completed", "Final Answer: " ++ x⟩])
        = String.mk (trimChars x.data))
    ∧ (∀ y : String, extract_report_from_result (.pyStr y) = y) := by
  constructor
  · intro x
    rw [extract_mkStructured]
    have hne : ¬("Final Answer: " ++ x) = "" := by
      intro hemp
      have hd : ("Final Answer: " ++ x).data = "".data := congrArg String.data hemp
      rw [String.data_append] at hd
      simp at hd
    have hb : (("Final Answer: " ++ x) != "") = true := bne_iff_ne.mpr hne
    have hfind : (([⟨"completed", "Final Answer: " ++ x⟩] : List StepOutcome)).reverse.find?
        isMatchB = some ⟨"completed", "Final Answer: " ++ x⟩ := by
      simp [List.find?, isMatchB, hb]
    rw [hfind]
    exact handleOutput_final_answer x
  · intro y
    have hbody : extractBody (.pyStr y) = .ok y := by
      rw [extractBody, if_neg]
      · rfl
      · simp [PyVal.hasattrB, PyVal.attr]
    rw [extract_report_from_result, hbody]

/-- Witness for C3 at a concrete input: the outcome
`(completed, "Final Answer: Report body")` extracts to `"Report body"`,
and a plain string survives unchanged. -/
theorem claim_C3_round_trip_extraction_witness :
    extract_report_from_result
        (mkStructuredResult [⟨"completed", "Final Answer: Report body"⟩])
      = "Report body"
    ∧ extract_report_from_result (.pyStr "Y") = "Y" := by
  constructor
  · have h := claim_C3_round_trip_extraction.1 "Report body"
    rw [show ("Final Answer: " ++ "Report body" : String) = "Final Answer: Report body" from by decide] at h
    rw [h]
    decide
  · exact claim_C3_round_trip_extraction.2 "Y"

/-- C4: whenever the structured outcome list has two or more outcomes
with status `completed` and non-empty text output, the one occurring
latest in the list is selected — the scan runs in reverse
(`l.reverse.find?`) and its first match supplies the report. -/
theorem claim_C4_latest_completed_selected (l : List StepOutcome)
    (h : 2 ≤ (l.filter isMatchB).length) :
    ∃ o, l.reverse.find? isMatchB = some o
      ∧ isMatchB o = true
      ∧ extract_report_from_result (mkStructuredResult l)
          = handleOutput o.output := by
  have hex : ∃ o ∈ l.reverse, isMatchB o := by
    rcases hfil : l.filter isMatchB with _ | ⟨a, arest⟩
    · rw [hfil] at h
      simp at h
    · have ham : a ∈ l.filter isMatchB := by
        rw [hfil]
        exact List.mem_cons_self a arest
      exact ⟨a, List.mem_reverse.mpr (List.mem_filter.mp ham).1,
        (List.mem_filter.mp ham).2⟩
  have hsome : (l.reverse.find? isMatchB).isSome := List.find?_isSome.mpr hex
  obtain ⟨o, ho⟩ := Option.isSome_iff_exists.mp hsome
  refine ⟨o, ho, List.find?_some ho, ?_⟩
  rw [extract_mkStructured, ho]

/-- Witness for C4: with two completed non-empty outcomes, the second
(later) one's output is returned. -/
theorem claim_C4_latest_completed_selected_witness :
    2 ≤ ((([⟨"completed", "first report"⟩, ⟨"completed", "second report"⟩] :
        List StepOutcome)).filter isMatchB).length
    ∧ extract_report_from_result
        (mkStructuredResult
          [⟨"completed", "first report"⟩, ⟨"completed", "second report"⟩])
      = "second report" := by
  refine ⟨by decide, ?_⟩
  obtain ⟨o, ho, _, hres⟩ := claim_C4_latest_completed_selected
    [⟨"completed", "first report"⟩, ⟨"completed", "second report"⟩] (by decide)
  have hodet : o = ⟨"completed", "second report"⟩ := by
    have hfd : (([⟨"completed", "first report"⟩, ⟨"completed", "second report"⟩] :
        List StepOutcome)).reverse.find? isMatchB
        = some ⟨"completed", "second report"⟩ := by decide
    rw [hfd] at ho
    exact (Option.some_injective _ ho).symm
  rw [hres, hodet]
  decide

/-- C5 counterexample: two inputs that both raise inside the `try:`
block (their `task_results` entry is not a sequence) are caught but
produce two different return values — `str(result)` of each input — so
the function does not return a fixed diagnostic string on exception. -/
theorem claim_C5_counterexample :
    (∃ e, extractBody errInput1 = .error e)
    ∧ (∃ e, extractBody errInput2 = .error e)
    ∧ extract_report_from_result errInput1 ≠ extract_report_from_result errInput2 :=
  ⟨⟨"TypeError", rfl⟩, ⟨"TypeError", rfl⟩, by decide⟩

/-- C5 (amended): extraction never propagates an exception — any
exception raised inside the body is caught and the function returns the
string representation `str(result)` of its input instead of aborting
the pipeline. -/
theorem claim_C5_exception_caught_returns_str (v : PyVal) (e : String)
    (h : extractBody v = .error e) :
    extract_report_from_result v = PyVal.pyStrOf v := by
  rw [extract_report_from_result, h]

/-- Witness for the amended C5 at a concrete raising input. -/
theorem claim_C5_exception_caught_returns_str_witness :
    extractBody errInput1 = .error "TypeError"
    ∧ extract_report_from_result errInput1 = PyVal.pyStrOf errInput1 :=
  ⟨rfl, claim_C5_exception_caught_returns_str errInput1 "TypeError" rfl⟩

/-- C6 counterexample: a call in which the rich PDF path fails and the
fallback markdown write also fails returns `None` and produces no
artifact at all, contradicting "never returns without one". -/
theorem claim_C6_counterexample :
    generate_pdf_report envBothFail "report body" (some "reports") "A1"
      = (none, []) := rfl

/-- C6 (amended): whenever the fallback markdown write succeeds,
`generate_pdf_report` returns a path to exactly one produced artifact;
in particular, when the rich PDF path fails for any reason — capability
probe failure or an exception inside the rich path — the artifact is
the plain-text markdown file whose filename embeds the requested
listing id. -/
theorem claim_C6_one_artifact_when_fallback_ok (env : RenderEnv)
    (content : String) (out : Option String) (lid : String)
    (h : env.fallbackWriteOk = true) :
    ∃ p, generate_pdf_report env content out lid = (some p, [p])
      ∧ ((env.richImportOk = false ∨ env.richWriteOk = false) →
          p = outputDir out ++ "/Land_Evaluation_" ++ lid ++ "_"
              ++ env.timestamp ++ ".md") := by
  rw [generate_pdf_report]
  by_cases hi : env.richImportOk = true
  · by_cases hw : env.richWriteOk = true
    · refine ⟨outputDir out ++ "/Land_Evaluation_" ++ lid ++ "_"
        ++ env.timestamp ++ ".pdf", ?_, ?_⟩
      · simp [hi, hw]
      · intro hor
        rcases hor with h1 | h1 <;> simp_all
    · refine ⟨outputDir out ++ "/Land_Evaluation_" ++ lid ++ "_"
        ++ env.timestamp ++ ".md", ?_, fun _ => rfl⟩
      simp only [Bool.not_eq_true] at hw
      simp [hi, hw, save_markdown_fallback, h]
  · refine ⟨outputDir out ++ "/Land_Evaluation_" ++ lid ++ "_"
      ++ env.timestamp ++ ".md", ?_, fun _ => rfl⟩
    simp only [Bool.not_eq_true] at hi
    simp [hi, save_markdown_fallback, h]

/-- Witness for the amended C6: the rich capability probe fails, the
fallback write succeeds, and the one artifact is the markdown file with
the listing id in its name. -/
theorem claim_C6_one_artifact_when_fallback_ok_witness :
    envFallback.fallbackWriteOk = true
    ∧ generate_pdf_report envFallback "report body" (some "reports") "A1"
        = (some "reports/Land_Evaluation_A1_20250101_000000.md",
           ["reports/Land_Evaluation_A1_20250101_000000.md"]) := by
  refine ⟨rfl, ?_⟩
  obtain ⟨p, hp, himp⟩ := claim_C6_one_artifact_when_fallback_ok envFallback
    "report body" (some "reports") "A1" rfl
  have hpe : p = "reports/Land_Evaluation_A1_20250101_000000.md" := by
    rw [himp (Or.inl rfl)]
    decide
  rw [hpe] at hp
  exact hp

/-- The unlink loop never invents files: the surviving file list is a
subset of the original one. -/
theorem unlinkLoop_subset (failSet del : List String) :
    ∀ files, ∀ f ∈ (unlinkLoop failSet del files).1, f ∈ files := by
  induction del with
  | nil => intro files f hf; exact hf
  | cons c cs ih =>
    intro files f hf
    rw [unlinkLoop] at hf
    by_cases hc : failSet.contains c = true
    · rw [if_pos hc] at hf
      exact hf
    · rw [if_neg hc] at hf
      have hmem := ih (files.filter (fun g => g ≠ c)) f hf
      exact (List.mem_filter.mp hmem).1

/-- With no injected faults, the unlink loop deletes exactly the listed
files and reports no error. -/
theorem unlinkLoop_no_faults (del : List String) :
    ∀ files, unlinkLoop [] del files
      = (files.filter (fun f => !(del.contains f)), false) := by
  induction del with
  | nil =>
    intro files
    rw [unlinkLoop]
    congr 1
    rw [show (fun f : String => !(([] : List String).contains f))
        = (fun _ : String => true) from rfl]
    rw [List.filter_true]
  | cons c cs ih =>
    intro files
    rw [unlinkLoop, if_neg (by simp), ih]
    congr 1
    rw [List.filter_filter]
    apply List.filter_congr
    intro f hf
    by_cases h : f = c
    · subst h
      simp
    · have hfc : (f == c) = false := beq_false_of_ne h
      have hne : (decide ¬(f = c)) = true := by simp [h]
      simp [List.contains, List.elem_cons, hfc, h]

/-- C7: `cleanup_cork_folder` never raises to its caller (it is a total
function returning the post-state plus a caught-exception flag), never
deletes the staging directory itself, deletes only files that were
there (and, fault-free, exactly the managed `*.csv` extracts), is
idempotent, and is a no-op without error on an empty or missing
directory. -/
theorem claim_C7_cleanup_safe_idempotent (failSet : List String) (d : CorkDir) :
    ((cleanup_cork_folder failSet d).1.dirExists = d.dirExists
      ∧ (cleanup_cork_folder failSet d).1.isDir = d.isDir)
    ∧ (∀ f ∈ (cleanup_cork_folder failSet d).1.files, f ∈ d.files)
    ∧ ((d.dirExists && d.isDir) = true →
        (cleanup_cork_folder [] d).1.files
          = d.files.filter (fun f => !(isCsv f)))
    ∧ cleanup_cork_folder [] (cleanup_cork_folder [] d).1
        = ((cleanup_cork_folder [] d).1, false)
    ∧ cleanup_cork_folder failSet ⟨false, d.isDir, d.files⟩
        = (⟨false, d.isDir, d.files⟩, false)
    ∧ cleanup_cork_folder failSet ⟨d.dirExists, d.isDir, []⟩
        = (⟨d.dirExists, d.isDir, []⟩, false) := by
  have hglob : ∀ files : List String,
      (files.filter (fun f => !(isCsv f))).filter isCsv = [] := by
    intro files
    rw [List.filter_filter]
    rw [show (fun a : String => isCsv a && !(isCsv a)) = (fun _ : String => false)
        from by funext a; exact Bool.and_not_self (isCsv a)]
    exact List.filter_false files
  have hclean : ∀ e : CorkDir, (e.dirExists && e.isDir) = true →
      cleanup_cork_folder [] e
        = (⟨e.dirExists, e.isDir, e.files.filter (fun f => !(isCsv f))⟩, false) := by
    intro e he
    rw [cleanup_cork_folder, if_pos he, unlinkLoop_no_faults]
    refine congrArg (fun fs => (({ e with files := fs } : CorkDir), false)) ?_
    apply List.filter_congr
    intro f hf
    by_cases h : isCsv f = true
    · have hmem : f ∈ e.files.filter isCsv := List.mem_filter.mpr ⟨hf, h⟩
      have hcont : (e.files.filter isCsv).contains f = true := List.elem_iff.mpr hmem
      rw [h, hcont]
    · simp only [Bool.not_eq_true] at h
      have hnm : f ∉ e.files.filter isCsv := by
        intro hmem
        have h2 := (List.mem_filter.mp hmem).2
        rw [h] at h2
        exact Bool.noConfusion h2
      have hcont : (e.files.filter isCsv).contains f = false := by
        rw [← Bool.not_eq_true]
        intro hc
        exact hnm (List.elem_iff.mp hc)
      rw [h, hcont]
  refine ⟨⟨?_, ?_⟩, ?_, ?_, ?_, ?_, ?_⟩
  · rw [cleanup_cork_folder]
    split <;> rfl
  · rw [cleanup_cork_folder]
    split <;> rfl
  · rw [cleanup_cork_folder]
    split
    · intro f hf
      exact unlinkLoop_subset failSet (d.files.filter isCsv) d.files f hf
    · intro f hf
      exact hf
  · intro he
    rw [hclean d he]
  · by_cases he : (d.dirExists && d.isDir) = true
    · rw [hclean d he]
      have he2 : ((⟨d.dirExists, d.isDir,
          d.files.filter (fun f => !(isCsv f))⟩ : CorkDir).dirExists
            && (⟨d.dirExists, d.isDir,
          d.files.filter (fun f => !(isCsv f))⟩ : CorkDir).isDir) = true := he
      rw [cleanup_cork_folder, if_pos he2]
      rw [show ((⟨d.dirExists, d.isDir,
          d.files.filter (fun f => !(isCsv f))⟩ : CorkDir).files.filter isCsv)
          = [] from hglob d.files]
      rw [unlinkLoop]
    · have hd : cleanup_cork_folder [] d = (d, false) := by
        rw [cleanup_cork_folder, if_neg he]
      rw [hd]
      exact hd
  · rw [cleanup_cork_folder]
    rw [if_neg (by simp)]
  · rw [cleanup_cork_folder]
    split
    · rfl
    · rfl

/-- Witness for C7 on a concrete staging directory holding one managed
extract and one unmanaged file: the extract is removed, the unmanaged
file survives and was already present, and a second run changes nothing
and reports no error. -/
theorem claim_C7_cleanup_safe_idempotent_witness :
    (cleanup_cork_folder [] corkEx).1.files = ["notes.txt"]
    ∧ cleanup_cork_folder [] (cleanup_cork_folder [] corkEx).1
        = ((cleanup_cork_folder [] corkEx).1, false)
    ∧ "notes.txt" ∈ corkEx.files := by
  have h := claim_C7_cleanup_safe_idempotent [] corkEx
  refine ⟨?_, h.2.2.2.1, h.2.1 "notes.txt" (by decide)⟩
  rw [h.2.2.1 (by decide)]
  decide

end Soar
